import Mathlib

/-
Verification of the release-automation script `submit_to_app_store.py`
against its natural-language specification.

The script is a single procedural pipeline of authenticated HTTP calls.
We embed each function shallowly: network interaction is an oracle
(a function from the index of the attempt / poll to the outcome the
remote side produced), sleeping is recorded as data, and `sys.exit`
becomes an explicit exit code in the result.
-/

/-! ## The authenticated request helper `make_api_request`

`make_api_request(method, endpoint, data=None, retries=3)` loops
`for attempt in range(retries)`.  Each iteration issues one HTTP request,
whose outcome we take from an oracle indexed by the attempt counter:
either a response (status, optional Retry-After header, parsed body),
a timeout (`requests.exceptions.Timeout`), or any other network error
(`requests.exceptions.RequestException`).
-/

structure HttpResp where
  status : Nat
  retryAfter : Option Nat
  body : Nat
deriving DecidableEq

inductive AttemptOutcome where
  | response (r : HttpResp)
  | timeout
  | netError
deriving DecidableEq

/-- What one call of `make_api_request` did: the returned value
(`none` models Python's `None` failure sentinel, `some b` models the
parsed JSON body), how many HTTP attempts were issued, and the list of
`time.sleep` durations in order. -/
structure ReqResult where
  result : Option Nat
  attemptsMade : Nat
  sleeps : List Nat
deriving DecidableEq

/-- The body of `for attempt in range(retries)` in `make_api_request`.
`fuel` is the number of loop iterations still available,
i.e. `retries - attempt`; when it runs out the function falls through
to the final `return None`.

Mirrors the source exactly:
* status 429: sleep `Retry-After` (default 60), `continue` — note the
  `continue` moves on to the next value of `attempt`;
* status ≥ 400: if `attempt < retries - 1` (here: `0 < fuel` after this
  iteration) sleep `5 * (attempt + 1)` and retry, else `return None`;
* other statuses: `return response.json()`;
* timeout / network error: same retry policy as status ≥ 400. -/
def requestLoop (oracle : Nat → AttemptOutcome) (attempt : Nat) : Nat → ReqResult
  | 0 => ⟨none, 0, []⟩
  | fuel + 1 =>
    match oracle attempt with
    | .response r =>
      if r.status = 429 then
        ⟨(requestLoop oracle (attempt + 1) fuel).result,
         (requestLoop oracle (attempt + 1) fuel).attemptsMade + 1,
         (r.retryAfter.getD 60) :: (requestLoop oracle (attempt + 1) fuel).sleeps⟩
      else if 400 ≤ r.status then
        if 0 < fuel then
          ⟨(requestLoop oracle (attempt + 1) fuel).result,
           (requestLoop oracle (attempt + 1) fuel).attemptsMade + 1,
           (5 * (attempt + 1)) :: (requestLoop oracle (attempt + 1) fuel).sleeps⟩
        else ⟨none, 1, []⟩
      else ⟨some r.body, 1, []⟩
    | .timeout =>
      if 0 < fuel then
        ⟨(requestLoop oracle (attempt + 1) fuel).result,
         (requestLoop oracle (attempt + 1) fuel).attemptsMade + 1,
         (5 * (attempt + 1)) :: (requestLoop oracle (attempt + 1) fuel).sleeps⟩
      else ⟨none, 1, []⟩
    | .netError =>
      if 0 < fuel then
        ⟨(requestLoop oracle (attempt + 1) fuel).result,
         (requestLoop oracle (attempt + 1) fuel).attemptsMade + 1,
         (5 * (attempt + 1)) :: (requestLoop oracle (attempt + 1) fuel).sleeps⟩
      else ⟨none, 1, []⟩

/-- `make_api_request` with its default `retries=3`. -/
def makeApiRequest (oracle : Nat → AttemptOutcome) (retries : Nat := 3) : ReqResult :=
  requestLoop oracle 0 retries

/-- An attempt outcome that takes the "Handle errors" / `except` path of
`make_api_request` (and not the rate-limit path): an HTTP response with
status ≥ 400 other than 429, a timeout, or a network error. -/
def isNon429Failure : AttemptOutcome → Bool
  | .response r => decide (400 ≤ r.status) && decide (r.status ≠ 429)
  | .timeout => true
  | .netError => true

/-! ## Version argument parsing in `main`

```
if '+' in version_string:
    version_part, build_number = version_string.split('+')
else:
    version_part = version_string
    build_number = None
```
`str.split('+')` splits at every occurrence of `'+'`; the 2-tuple
unpacking raises `ValueError` unless the split has exactly two parts.
-/

/-- Python's `str.split(sep)` for a single-character separator, on the
character list of the string. -/
def pySplit (sep : Char) : List Char → List (List Char)
  | [] => [[]]
  | c :: rest =>
    match pySplit sep rest with
    | [] => [[]]
    | p :: ps => if c = sep then [] :: p :: ps else (c :: p) :: ps

/-- The version-argument parse in `main`.  `none` models the uncaught
`ValueError` from tuple unpacking (which the `__main__` guard turns into
exit code 1); `some (v, some b)` models a successful split into
`version_part` and `build_number`; `some (v, none)` the no-`'+'` case. -/
def parseVersionArg (s : List Char) : Option (List Char × Option (List Char)) :=
  if '+' ∈ s then
    match pySplit '+' s with
    | [v, b] => some (v, some b)
    | _ => none
  else some (s, none)

/-- String-level wrapper of `parseVersionArg`, used by the `main` model. -/
def parseVersion (s : String) : Option (String × Option String) :=
  match parseVersionArg s.toList with
  | none => none
  | some (v, b) => some (String.mk v, b.map String.mk)

/-! ## HTTP call bookkeeping

For the pipeline-level claims we record which endpoints each stage hits
and with which HTTP verbs (one entry per `make_api_request` call site
reached; the retry loop inside `make_api_request` repeats the same verb
and endpoint, so recording the call once is enough to decide whether a
mutating request was issued). -/

inductive HttpMethod where
  | get
  | post
  | patch
deriving DecidableEq

structure ApiCall where
  method : HttpMethod
  endpoint : String
deriving DecidableEq

/-! ## `wait_for_build_processing`

The polling loop over the remote build list.  Each iteration issues
`GET /builds?...&limit=5`; the oracle gives, for poll index `i`, the
parsed result of that `make_api_request` call (`none` = request failed
after its retries, `some builds` = the `data` array).  Wall-clock time
is modelled as the sum of the `time.sleep` calls executed so far
(network time is not modelled), so `elapsed > max_wait_seconds` is
checked exactly where the source checks it. -/

structure BuildInfo where
  id : String
  version : String
  processingState : String
deriving DecidableEq

structure WaitResult where
  result : Option String
  elapsed : Nat
  logs : List (String × String)
  polls : Nat
deriving DecidableEq

/-- The `while True:` loop of `wait_for_build_processing`.
`expected` is `expected_build_number`, `lastS`/`lastV` the
`last_state`/`last_version` variables.  Faithful to the source:

* a failed request or an empty `data` array returns `None` at once;
* with a specific build number, the build list is searched for a
  matching `version`; if absent, the timeout is checked
  (`elapsed > max_wait_seconds` returns `None`) and the loop sleeps 5 s;
* otherwise the target is the first (most recent) build;
* `Build {version} - State: {state}` is logged only when the state or
  version changed;
* `VALID` returns the build id, `INVALID` returns `None`;
* then the timeout is checked, and the loop sleeps 30 s
  (state not `PROCESSING`) or 5 s (state `PROCESSING`).

The loop terminates because every recursive call strictly increases
`elapsed` and only happens while `elapsed ≤ maxWaitSeconds` — this is
the formal content of "no wait loop blocks forever". -/
def waitLoop (oracle : Nat → Option (List BuildInfo)) (expected : Option String)
    (maxWaitSeconds : Nat) (i : Nat) (elapsed : Nat)
    (lastS lastV : Option String) : WaitResult :=
  match oracle i with
  | none => ⟨none, elapsed, [], 1⟩
  | some [] => ⟨none, elapsed, [], 1⟩
  | some (b0 :: bs) =>
    let tgt : Option BuildInfo :=
      match expected with
      | some bn => (b0 :: bs).find? (fun b => b.version == bn)
      | none => some b0
    match tgt with
    | none =>
      if _h : elapsed > maxWaitSeconds then ⟨none, elapsed, [], 1⟩
      else
        let r := waitLoop oracle expected maxWaitSeconds (i + 1) (elapsed + 5) lastS lastV
        ⟨r.result, r.elapsed, r.logs, r.polls + 1⟩
    | some target =>
      let st := target.processingState
      let logHere : List (String × String) :=
        if some st ≠ lastS ∨ some target.version ≠ lastV then [(target.version, st)] else []
      if st = "VALID" then ⟨some target.id, elapsed, logHere, 1⟩
      else if st = "INVALID" then ⟨none, elapsed, logHere, 1⟩
      else if _h : elapsed > maxWaitSeconds then ⟨none, elapsed, logHere, 1⟩
      else
        let slp := if st ≠ "PROCESSING" then 30 else 5
        let r := waitLoop oracle expected maxWaitSeconds (i + 1) (elapsed + slp)
          (some st) (some target.version)
        ⟨r.result, r.elapsed, logHere ++ r.logs, r.polls + 1⟩
  termination_by maxWaitSeconds + 1 - elapsed
  decreasing_by
    · omega
    · simp only [not_lt] at _h
      split <;> omega

/-- `wait_for_build_processing(app_id, expected_build_number,
max_wait_minutes=60, dry_run=False)`: in dry-run mode it returns the
placeholder `"dry-run-build-id"` without any API call; otherwise it runs
the polling loop, issuing one GET per poll. -/
def wait_for_build_processing (oracle : Nat → Option (List BuildInfo))
    (expected : Option String) (maxWaitMinutes : Nat) (dryRun : Bool) :
    Option String × List ApiCall :=
  if dryRun then (some "dry-run-build-id", [])
  else
    let r := waitLoop oracle expected (maxWaitMinutes * 60) 0 0 none none
    (r.result, List.replicate r.polls ⟨.get, "/builds"⟩)

/-! ## The remaining pipeline stages

Each stage function takes the parsed result of the `make_api_request`
calls it would issue (an oracle per call site: `none` = that request
failed after its retries, `some x` = the parsed response) and returns
its Python return value together with the list of API calls it issued.
-/

structure AppInfo where
  id : String
  name : String
deriving DecidableEq

/-- `find_app_by_bundle_id`: one GET; `None` when the request failed or
the `data` array is empty, else the id of the first entry. -/
def find_app_by_bundle_id (resp : Option (List AppInfo)) : Option String × List ApiCall :=
  (match resp with
   | none => none
   | some [] => none
   | some (a :: _) => some a.id,
   [⟨.get, "/apps"⟩])

structure VersionInfo where
  id : String
  appStoreState : String
deriving DecidableEq

/-- The `appStoreState` values `get_or_create_version` treats as
"already submitted". -/
def submittedStates : List String :=
  ["WAITING_FOR_REVIEW", "IN_REVIEW", "PENDING_DEVELOPER_RELEASE", "READY_FOR_SALE"]

structure GcvResult where
  versionId : Option String
  calls : List ApiCall
deriving DecidableEq

/-- `get_or_create_version`: GET the version filtered by version string;
on request failure return `None`; if a version exists and its state is
post-submission return `None` (skip), else return its id; if no version
exists, in dry-run return the placeholder without any mutating call,
otherwise POST a new version (`None` if that request fails). -/
def get_or_create_version (lookupResp : Option (List VersionInfo))
    (createResp : Option String) (dryRun : Bool) : GcvResult :=
  match lookupResp with
  | none => ⟨none, [⟨.get, "/appStoreVersions"⟩]⟩
  | some (v :: _) =>
    if v.appStoreState ∈ submittedStates then ⟨none, [⟨.get, "/appStoreVersions"⟩]⟩
    else ⟨some v.id, [⟨.get, "/appStoreVersions"⟩]⟩
  | some [] =>
    if dryRun then ⟨some "dry-run-version-id", [⟨.get, "/appStoreVersions"⟩]⟩
    else
      match createResp with
      | none => ⟨none, [⟨.get, "/appStoreVersions"⟩, ⟨.post, "/appStoreVersions"⟩]⟩
      | some vid => ⟨some vid, [⟨.get, "/appStoreVersions"⟩, ⟨.post, "/appStoreVersions"⟩]⟩

/-- `link_build_to_version`: dry-run is a no-op returning `True`;
otherwise one PATCH whose success is the stage result. -/
def link_build_to_version (patchOk : Bool) (dryRun : Bool) : Bool × List ApiCall :=
  if dryRun then (true, [])
  else (patchOk, [⟨.patch, "/appStoreVersions/id"⟩])

structure LocInfo where
  id : String
  locale : String
deriving DecidableEq

structure NotesResult where
  ok : Bool
  calls : List ApiCall
  updatedLocales : List String
  failedLocales : List String
deriving DecidableEq

/-- `add_release_notes_all_locales`: dry-run is a no-op returning
`True`.  Otherwise: GET the localizations (`None` or an empty list is a
`False` result with no PATH issued); else PATCH every localization
independently, count successes, and return `True` when all succeeded,
`True` when at least one succeeded (partial failure), `False` when none
did. -/
def add_release_notes_all_locales (locsResp : Option (List LocInfo))
    (patchOk : String → Bool) (dryRun : Bool) : NotesResult :=
  if dryRun then ⟨true, [], [], []⟩
  else
    match locsResp with
    | none => ⟨false, [⟨.get, "/appStoreVersionLocalizations"⟩], [], []⟩
    | some [] => ⟨false, [⟨.get, "/appStoreVersionLocalizations"⟩], [], []⟩
    | some (l :: ls) =>
      let locs := l :: ls
      let updated := (locs.filter (fun x => patchOk x.id)).map (fun x => x.locale)
      let failed := (locs.filter (fun x => !patchOk x.id)).map (fun x => x.locale)
      let successCount := (locs.filter (fun x => patchOk x.id)).length
      let calls := ⟨.get, "/appStoreVersionLocalizations"⟩ ::
        locs.map (fun _ => (⟨.patch, "/appStoreVersionLocalizations/id"⟩ : ApiCall))
      if successCount = locs.length then ⟨true, calls, updated, failed⟩
      else if 0 < successCount then ⟨true, calls, updated, failed⟩
      else ⟨false, calls, updated, failed⟩

/-- `submit_for_review_legacy`: one POST to the deprecated endpoint. -/
def submit_for_review_legacy (legacyOk : Bool) : Bool × List ApiCall :=
  (legacyOk, [⟨.post, "/appStoreVersionSubmissions"⟩])

/-- `submit_for_review`: dry-run is a no-op returning `True`.  Otherwise
the three-step protocol: POST the submission envelope (on failure, fall
back to the legacy single-call endpoint); POST the submission item (on
failure return `False`); PATCH to confirm (on failure return
`False`). -/
def submit_for_review (createResp : Option String) (itemOk confirmOk legacyOk : Bool)
    (dryRun : Bool) : Bool × List ApiCall :=
  if dryRun then (true, [])
  else
    match createResp with
    | none =>
      ((submit_for_review_legacy legacyOk).1,
       ⟨.post, "/reviewSubmissions"⟩ :: (submit_for_review_legacy legacyOk).2)
    | some _sid =>
      if !itemOk then
        (false, [⟨.post, "/reviewSubmissions"⟩, ⟨.post, "/reviewSubmissionItems"⟩])
      else if !confirmOk then
        (false, [⟨.post, "/reviewSubmissions"⟩, ⟨.post, "/reviewSubmissionItems"⟩,
                 ⟨.patch, "/reviewSubmissions/id"⟩])
      else
        (true, [⟨.post, "/reviewSubmissions"⟩, ⟨.post, "/reviewSubmissionItems"⟩,
                ⟨.patch, "/reviewSubmissions/id"⟩])

/-! ## The `main` workflow and the `__main__` guard -/

structure Args where
  version : String
  dryRun : Bool
  bundleIdOverride : Option String
deriving DecidableEq

/-- Everything the remote side (and the local project file) contributes
to one run: the parsed result of each `make_api_request` call site, per
call. -/
structure MainEnv where
  envOk : Bool
  detectedBundleId : Option String
  appsResp : Option (List AppInfo)
  buildsOracle : Nat → Option (List BuildInfo)
  versionLookup : Option (List VersionInfo)
  versionCreate : Option String
  linkOk : Bool
  locsResp : Option (List LocInfo)
  locPatchOk : String → Bool
  rsCreate : Option String
  rsItemOk : Bool
  rsConfirmOk : Bool
  rsLegacyOk : Bool

/-- `args.bundle_id or find_bundle_id(args.project_path)` — the CLI
override wins; otherwise the id parsed out of the Xcode project file
(abstracted as an environment input, since no claim depends on the
regex itself). -/
def resolve_bundle_id (args : Args) (env : MainEnv) : Option String :=
  match args.bundleIdOverride with
  | some b => some b
  | none => env.detectedBundleId

/-- What one run of `main` did: the process exit code (`sys.exit`
raises `SystemExit`, which the `__main__` guard's `except Exception`
does not catch, so the argument of `sys.exit` is the process exit code;
falling off the end of `main` exits 0), whether the final summary block
was printed, every API call issued, and the version id, build id and
submission flag shown in the summary. -/
structure MainResult where
  exitCode : Nat
  reachedSummary : Bool
  calls : List ApiCall
  summaryVersionId : Option String
  summaryBuildId : Option String
  submissionSuccess : Option Bool
deriving DecidableEq

/-- The `main()` workflow, stage by stage in source order:
environment check (exit 1), version parse (uncaught `ValueError` →
guard exit 1), bundle-id resolution (exit 1), app lookup (exit 1),
build wait (exit 1), get-or-create version (`None` → exit 0,
"Not an error, just already done"), build link (exit 1), release notes
(exit 1), review submission (failure only changes the summary text),
then the summary (exit 0). -/
def mainRun (args : Args) (env : MainEnv) : MainResult :=
  if !env.envOk then ⟨1, false, [], none, none, none⟩
  else
    match parseVersion args.version with
    | none => ⟨1, false, [], none, none, none⟩
    | some (_versionPart, buildNumber) =>
      match resolve_bundle_id args env with
      | none => ⟨1, false, [], none, none, none⟩
      | some _bid =>
        match find_app_by_bundle_id env.appsResp with
        | (none, c1) => ⟨1, false, c1, none, none, none⟩
        | (some _appId, c1) =>
          match wait_for_build_processing env.buildsOracle buildNumber 60 args.dryRun with
          | (none, c2) => ⟨1, false, c1 ++ c2, none, none, none⟩
          | (some buildId, c2) =>
            let g := get_or_create_version env.versionLookup env.versionCreate args.dryRun
            match g.versionId with
            | none => ⟨0, false, c1 ++ c2 ++ g.calls, none, none, none⟩
            | some versionId =>
              match link_build_to_version env.linkOk args.dryRun with
              | (false, c4) => ⟨1, false, c1 ++ c2 ++ g.calls ++ c4, none, none, none⟩
              | (true, c4) =>
                let n := add_release_notes_all_locales env.locsResp env.locPatchOk args.dryRun
                if !n.ok then
                  ⟨1, false, c1 ++ c2 ++ g.calls ++ c4 ++ n.calls, none, none, none⟩
                else
                  let s := submit_for_review env.rsCreate env.rsItemOk env.rsConfirmOk
                    env.rsLegacyOk args.dryRun
                  ⟨0, true, c1 ++ c2 ++ g.calls ++ c4 ++ n.calls ++ s.2,
                   some versionId, some buildId, some s.1⟩

/-- How the interpreter leaves `main()`: a normal `sys.exit` / fall-off
(with an exit code), a `KeyboardInterrupt`, or any other uncaught
exception. -/
inductive MainOutcome where
  | exitWith (code : Nat)
  | keyboardInterrupt
  | exception
deriving DecidableEq

/-- The `if __name__ == "__main__"` guard: `KeyboardInterrupt` exits
130, any other uncaught exception exits 1, and `SystemExit` (from
`sys.exit`) passes through unchanged. -/
def topLevelExitCode : MainOutcome → Nat
  | .exitWith code => code
  | .keyboardInterrupt => 130
  | .exception => 1

/-! ### Shared concrete fixtures for pipeline-level witnesses -/

def demoBuildsOracle : Nat → Option (List BuildInfo) := fun _ => some [⟨"bld-1", "30", "VALID"⟩]

def demoApp : AppInfo := ⟨"app-1", "Demo App"⟩

def demoEnv : MainEnv where
  envOk := true
  detectedBundleId := some "com.example.app"
  appsResp := some [demoApp]
  buildsOracle := demoBuildsOracle
  versionLookup := some []
  versionCreate := some "ver-1"
  linkOk := true
  locsResp := some [⟨"loc-1", "en-US"⟩, ⟨"loc-2", "de-DE"⟩]
  locPatchOk := fun s => s == "loc-1"
  rsCreate := none
  rsItemOk := false
  rsConfirmOk := false
  rsLegacyOk := false

def demoArgs : Args := ⟨"1.2.3+30", false, some "com.example.app"⟩

/-- Environment for the C9 counterexample: everything succeeds except
the version-creation POST. -/
def c9Env : MainEnv := { demoEnv with versionCreate := none }

/-- Environment for the C10 witness: the version has zero
localizations attached. -/
def c10Env : MainEnv := { demoEnv with locsResp := some [] }
/-! ### Helper lemmas about `requestLoop` and `pySplit` -/

theorem requestLoop_zero (oracle : Nat → AttemptOutcome) (attempt : Nat) :
    requestLoop oracle attempt 0 = ⟨none, 0, []⟩ := rfl

theorem requestLoop_429 (oracle : Nat → AttemptOutcome) (attempt fuel : Nat)
    (r : HttpResp) (ho : oracle attempt = .response r) (h429 : r.status = 429) :
    requestLoop oracle attempt (fuel + 1) =
      ⟨(requestLoop oracle (attempt + 1) fuel).result,
       (requestLoop oracle (attempt + 1) fuel).attemptsMade + 1,
       (r.retryAfter.getD 60) :: (requestLoop oracle (attempt + 1) fuel).sleeps⟩ := by
  simp [requestLoop, ho, h429]

theorem requestLoop_fail_retry (oracle : Nat → AttemptOutcome) (attempt fuel : Nat)
    (h : isNon429Failure (oracle attempt) = true) :
    requestLoop oracle attempt (fuel + 2) =
      ⟨(requestLoop oracle (attempt + 1) (fuel + 1)).result,
       (requestLoop oracle (attempt + 1) (fuel + 1)).attemptsMade + 1,
       (5 * (attempt + 1)) :: (requestLoop oracle (attempt + 1) (fuel + 1)).sleeps⟩ := by
  rcases ho : oracle attempt with r | _ | _ <;> rw [ho] at h
  · simp only [isNon429Failure, Bool.and_eq_true, decide_eq_true_eq] at h
    have e : fuel + 2 = (fuel + 1) + 1 := rfl
    rw [e, requestLoop]
    simp [ho, h.1, h.2]
  · have e : fuel + 2 = (fuel + 1) + 1 := rfl
    rw [e, requestLoop]
    simp [ho]
  · have e : fuel + 2 = (fuel + 1) + 1 := rfl
    rw [e, requestLoop]
    simp [ho]

theorem requestLoop_fail_last (oracle : Nat → AttemptOutcome) (attempt : Nat)
    (h : isNon429Failure (oracle attempt) = true) :
    requestLoop oracle attempt 1 = ⟨none, 1, []⟩ := by
  rcases ho : oracle attempt with r | _ | _ <;> rw [ho] at h
  · simp only [isNon429Failure, Bool.and_eq_true, decide_eq_true_eq] at h
    have e : (1 : Nat) = 0 + 1 := rfl
    rw [e, requestLoop]
    simp [ho, h.1, h.2]
  · have e : (1 : Nat) = 0 + 1 := rfl
    rw [e, requestLoop]
    simp [ho]
  · have e : (1 : Nat) = 0 + 1 := rfl
    rw [e, requestLoop]
    simp [ho]

theorem pySplit_length (sep : Char) (l : List Char) :
    (pySplit sep l).length = l.count sep + 1 := by
  induction l with
  | nil => simp [pySplit]
  | cons c rest ih =>
    rcases hp : pySplit sep rest with _ | ⟨p, ps⟩
    · rw [hp] at ih
      simp at ih
    · rw [hp] at ih
      simp only [List.length_cons] at ih
      by_cases hc : c = sep
      · subst hc
        simp only [pySplit, hp, if_pos rfl, List.length_cons, List.count_cons]
        simp
        omega
      · simp only [pySplit, hp, if_neg hc, List.length_cons, List.count_cons]
        simp [hc]
        omega

theorem pySplit_no_sep (sep : Char) (l : List Char) (h : sep ∉ l) :
    pySplit sep l = [l] := by
  induction l with
  | nil => rfl
  | cons c rest ih =>
    have hc : ¬ c = sep := fun e => h (e ▸ List.mem_cons_self c rest)
    have hrest : sep ∉ rest := fun m => h (List.mem_cons_of_mem c m)
    simp [pySplit, ih hrest, hc]

theorem pySplit_one_sep (sep : Char) (l : List Char) (h : l.count sep = 1) :
    ∃ a b, l = a ++ sep :: b ∧ pySplit sep l = [a, b] := by
  induction l with
  | nil => simp at h
  | cons c rest ih =>
    by_cases hc : c = sep
    · subst hc
      have hz : rest.count c = 0 := by
        rw [List.count_cons] at h
        simp at h
        omega
      have hnm : c ∉ rest := by
        intro m
        have := List.count_pos_iff.2 m
        omega
      refine ⟨[], rest, by simp, ?_⟩
      simp [pySplit, pySplit_no_sep c rest hnm]
    · have hr : rest.count sep = 1 := by
        rw [List.count_cons] at h
        simp [hc] at h
        exact h
      obtain ⟨a, b, hab, hsplit⟩ := ih hr
      exact ⟨c :: a, b, by simp [hab], by simp [pySplit, hsplit, hc]⟩

/-! ## Claims C1 and C2: retry behaviour of `make_api_request` -/

/-- C1, counterexample.  Three consecutive 429 responses (with
`Retry-After: 2`) exhaust all three bounded attempts and yield the
failure sentinel `None`: the `continue` after the rate-limit sleep moves
the `for attempt in range(retries)` loop to its next iteration, so a 429
does consume a retry attempt, and a 429 on the last attempt produces a
failure result instead of another retry. -/
theorem c1_429_exhausts_attempts :
    makeApiRequest (fun _ => .response ⟨429, some 2, 0⟩) 3 = ⟨none, 3, [2, 2, 2]⟩ := by
  decide

/-- C1 (amended): on HTTP 429 the helper sleeps for the server-supplied
`Retry-After` interval (60 seconds when the header is absent) and then
retries, but the retry consumes one of the bounded attempts (the attempt
counter advances); in particular a 429 received on the last attempt
still sleeps but then exits the loop with the failure sentinel `None`
instead of retrying. -/
theorem c1_rate_limit_consumes_attempt (oracle : Nat → AttemptOutcome)
    (attempt fuel : Nat) (r : HttpResp)
    (ho : oracle attempt = .response r) (h429 : r.status = 429) :
    requestLoop oracle attempt (fuel + 1) =
      ⟨(requestLoop oracle (attempt + 1) fuel).result,
       (requestLoop oracle (attempt + 1) fuel).attemptsMade + 1,
       (r.retryAfter.getD 60) :: (requestLoop oracle (attempt + 1) fuel).sleeps⟩ ∧
    requestLoop oracle attempt 1 = ⟨none, 1, [r.retryAfter.getD 60]⟩ := by
  refine ⟨requestLoop_429 oracle attempt fuel r ho h429, ?_⟩
  have h := requestLoop_429 oracle attempt 0 r ho h429
  simpa [requestLoop_zero] using h

/-- Witness for `c1_rate_limit_consumes_attempt`: a concrete 429
response with `Retry-After: 2`, given to the loop on its final attempt,
makes the helper sleep 2 seconds and return the failure sentinel. -/
theorem c1_rate_limit_consumes_attempt_witness :
    requestLoop (fun _ => .response ⟨429, some 2, 0⟩) 0 1 = ⟨none, 1, [2]⟩ :=
  (c1_rate_limit_consumes_attempt (fun _ => .response ⟨429, some 2, 0⟩)
    0 0 ⟨429, some 2, 0⟩ rfl rfl).2

/-- C2, counterexample.  The claim quantifies over all failing responses
with HTTP status ≥ 400, which includes 429.  Three consecutive 429
responses with `Retry-After: 7` do produce exactly 3 attempts and the
failure sentinel, but the sleeps are 7 s, 7 s, 7 s — not the claimed
5 s-then-10 s backoff, and a sleep even follows the final attempt. -/
theorem c2_429_breaks_backoff_pattern :
    makeApiRequest (fun _ => .response ⟨429, some 7, 0⟩) 3 = ⟨none, 3, [7, 7, 7]⟩ := by
  decide

/-- C2 (amended): for every sequence of 3 consecutive failing responses
on the error path of `make_api_request` — HTTP status ≥ 400 other than
429, a request timeout, or a network error — the helper performs exactly
3 attempts, sleeping 5 s and then 10 s between consecutive attempts, and
returns the failure sentinel `None` without a 4th attempt (429 responses
instead sleep for the `Retry-After` interval, as settled with C1). -/
theorem c2_three_failures_exhaust_retries (oracle : Nat → AttemptOutcome)
    (H : ∀ i, i < 3 → isNon429Failure (oracle i) = true) :
    makeApiRequest oracle 3 = ⟨none, 3, [5, 10]⟩ := by
  have h0 := H 0 (by omega)
  have h1 := H 1 (by omega)
  have h2 := H 2 (by omega)
  have s2 : requestLoop oracle 2 1 = ⟨none, 1, []⟩ := requestLoop_fail_last oracle 2 h2
  have s1 : requestLoop oracle 1 2 =
      ⟨(requestLoop oracle 2 1).result, (requestLoop oracle 2 1).attemptsMade + 1,
       (5 * 2) :: (requestLoop oracle 2 1).sleeps⟩ :=
    requestLoop_fail_retry oracle 1 0 h1
  have s0 : requestLoop oracle 0 3 =
      ⟨(requestLoop oracle 1 2).result, (requestLoop oracle 1 2).attemptsMade + 1,
       (5 * 1) :: (requestLoop oracle 1 2).sleeps⟩ :=
    requestLoop_fail_retry oracle 0 1 h0
  rw [s2] at s1
  rw [s1] at s0
  simpa [makeApiRequest] using s0

/-- Witness for `c2_three_failures_exhaust_retries`: three consecutive
HTTP 500 responses yield exactly 3 attempts, sleeps of 5 s and 10 s, and
the failure sentinel. -/
theorem c2_three_failures_exhaust_retries_witness :
    makeApiRequest (fun _ => .response ⟨500, none, 0⟩) 3 = ⟨none, 3, [5, 10]⟩ :=
  c2_three_failures_exhaust_retries (fun _ => .response ⟨500, none, 0⟩) (by decide)

/-! ## Claim C3: version-string parsing in `main` -/

/-- C3, counterexample.  On a version argument with two `'+'` characters
the tuple unpacking `version_part, build_number = version_string.split('+')`
raises `ValueError` (modelled as `none`): the argument is not split into
a version part and build number, so the claim's "for all such strings,
including strings containing more than one '+'" fails. -/
theorem c3_double_plus_raises :
    parseVersionArg ['1', '.', '0', '+', '2', '+', '3'] = none := by
  decide

/-- C3 (amended): a version argument containing exactly one `'+'` is
split into the text before and after the `'+'`; an argument with no
`'+'` yields the whole argument and an absent build number; an argument
with two or more `'+'` characters makes the tuple unpacking raise an
uncaught `ValueError` (the run then exits with code 1). -/
theorem c3_version_split (s : List Char) :
    (s.count '+' = 0 → parseVersionArg s = some (s, none)) ∧
    (s.count '+' = 1 → ∃ v b, s = v ++ '+' :: b ∧ parseVersionArg s = some (v, some b)) ∧
    (2 ≤ s.count '+' → parseVersionArg s = none) := by
  refine ⟨?_, ?_, ?_⟩
  · intro h0
    have hnm : '+' ∉ s := by
      intro m
      have := List.count_pos_iff.2 m
      omega
    simp [parseVersionArg, hnm]
  · intro h1
    obtain ⟨a, b, hab, hsplit⟩ := pySplit_one_sep '+' s h1
    have hm : '+' ∈ s := by
      rw [hab]
      exact List.mem_append_right _ (List.mem_cons_self _ _)
    refine ⟨a, b, hab, ?_⟩
    simp [parseVersionArg, hm, hsplit]
  · intro h2
    have hm : '+' ∈ s := List.count_pos_iff.1 (by omega)
    have hl := pySplit_length '+' s
    rcases hp : pySplit '+' s with _ | ⟨a, tail⟩
    · rw [hp] at hl
      simp at hl
    · rcases tail with _ | ⟨b, tail2⟩
      · rw [hp] at hl
        simp at hl
        omega
      · rcases tail2 with _ | ⟨c, rest⟩
        · rw [hp] at hl
          simp at hl
          omega
        · simp [parseVersionArg, hm, hp]

/-- Witness for `c3_version_split`: `1.13.0+30` splits into version part
`1.13.0` and build number `30`. -/
theorem c3_version_split_witness :
    ∃ v b, ['1', '.', '1', '3', '.', '0', '+', '3', '0'] = v ++ '+' :: b ∧
      parseVersionArg ['1', '.', '1', '3', '.', '0', '+', '3', '0'] = some (v, some b) :=
  (c3_version_split ['1', '.', '1', '3', '.', '0', '+', '3', '0']).2.1 (by decide)

/-! ### Helper lemmas about `waitLoop` -/

theorem waitLoop_build_never_appears (oracle : Nat → Option (List BuildInfo)) (bn : String)
    (maxWaitSeconds : Nat)
    (H : ∀ i, ∃ b bs, oracle i = some (b :: bs) ∧ ∀ x ∈ b :: bs, x.version ≠ bn) :
    ∀ fuel i elapsed lastS lastV, maxWaitSeconds + 1 - elapsed ≤ fuel →
      elapsed ≤ maxWaitSeconds + 5 →
      (waitLoop oracle (some bn) maxWaitSeconds i elapsed lastS lastV).result = none ∧
      maxWaitSeconds < (waitLoop oracle (some bn) maxWaitSeconds i elapsed lastS lastV).elapsed ∧
      (waitLoop oracle (some bn) maxWaitSeconds i elapsed lastS lastV).elapsed ≤ maxWaitSeconds + 5 := by
  intro fuel
  induction fuel with
  | zero =>
    intro i elapsed lastS lastV hfuel hbound
    obtain ⟨b, bs, ho, hnone⟩ := H i
    have hfind : (b :: bs).find? (fun x => x.version == bn) = none := by
      rw [List.find?_eq_none]
      intro x hx
      simpa using hnone x hx
    have htime : elapsed > maxWaitSeconds := by omega
    unfold waitLoop
    simp [ho, hfind, htime]
    omega
  | succ fuel ih =>
    intro i elapsed lastS lastV hfuel hbound
    obtain ⟨b, bs, ho, hnone⟩ := H i
    have hfind : (b :: bs).find? (fun x => x.version == bn) = none := by
      rw [List.find?_eq_none]
      intro x hx
      simpa using hnone x hx
    by_cases htime : elapsed > maxWaitSeconds
    · unfold waitLoop
      simp [ho, hfind, htime]
      omega
    · have ihr := ih (i + 1) (elapsed + 5) lastS lastV (by omega) (by omega)
      unfold waitLoop
      simp [ho, hfind, htime]
      exact ihr

theorem waitLoop_processing_forever (oracle : Nat → Option (List BuildInfo))
    (maxWaitSeconds : Nat)
    (H : ∀ i, ∃ b bs, oracle i = some (b :: bs) ∧ b.processingState = "PROCESSING") :
    ∀ fuel i elapsed lastS lastV, maxWaitSeconds + 1 - elapsed ≤ fuel →
      elapsed ≤ maxWaitSeconds + 5 →
      (waitLoop oracle none maxWaitSeconds i elapsed lastS lastV).result = none ∧
      maxWaitSeconds < (waitLoop oracle none maxWaitSeconds i elapsed lastS lastV).elapsed ∧
      (waitLoop oracle none maxWaitSeconds i elapsed lastS lastV).elapsed ≤ maxWaitSeconds + 5 := by
  intro fuel
  induction fuel with
  | zero =>
    intro i elapsed lastS lastV hfuel hbound
    obtain ⟨b, bs, ho, hproc⟩ := H i
    have htime : elapsed > maxWaitSeconds := by omega
    unfold waitLoop
    simp [ho, hproc, htime]
    omega
  | succ fuel ih =>
    intro i elapsed lastS lastV hfuel hbound
    obtain ⟨b, bs, ho, hproc⟩ := H i
    by_cases htime : elapsed > maxWaitSeconds
    · unfold waitLoop
      simp [ho, hproc, htime]
      omega
    · have ihr := ih (i + 1) (elapsed + 5) (some "PROCESSING") (some b.version)
        (by omega) (by omega)
      unfold waitLoop
      simp [ho, hproc, htime]
      exact ihr

theorem waitLoop_expected_processing_forever (oracle : Nat → Option (List BuildInfo))
    (bn : String) (maxWaitSeconds : Nat)
    (H : ∀ i, ∃ b bs t, oracle i = some (b :: bs) ∧
      (b :: bs).find? (fun x => x.version == bn) = some t ∧
      t.processingState = "PROCESSING") :
    ∀ fuel i elapsed lastS lastV, maxWaitSeconds + 1 - elapsed ≤ fuel →
      elapsed ≤ maxWaitSeconds + 5 →
      (waitLoop oracle (some bn) maxWaitSeconds i elapsed lastS lastV).result = none ∧
      maxWaitSeconds < (waitLoop oracle (some bn) maxWaitSeconds i elapsed lastS lastV).elapsed ∧
      (waitLoop oracle (some bn) maxWaitSeconds i elapsed lastS lastV).elapsed ≤
        maxWaitSeconds + 5 := by
  intro fuel
  induction fuel with
  | zero =>
    intro i elapsed lastS lastV hfuel hbound
    obtain ⟨b, bs, t, ho, hfind, hproc⟩ := H i
    have htime : elapsed > maxWaitSeconds := by omega
    unfold waitLoop
    simp [ho, hfind, hproc, htime]
    omega
  | succ fuel ih =>
    intro i elapsed lastS lastV hfuel hbound
    obtain ⟨b, bs, t, ho, hfind, hproc⟩ := H i
    by_cases htime : elapsed > maxWaitSeconds
    · unfold waitLoop
      simp [ho, hfind, hproc, htime]
      omega
    · have ihr := ih (i + 1) (elapsed + 5) (some "PROCESSING") (some t.version)
        (by omega) (by omega)
      unfold waitLoop
      simp [ho, hfind, hproc, htime]
      exact ihr

theorem waitLoop_processing_phase (bid bv : String) (states : Nat → String)
    (maxWaitSeconds : Nat) (term : String)
    (hVI : term = "VALID" ∨ term = "INVALID") :
    ∀ k i elapsed, (∀ j, j < k → states (i + j) = "PROCESSING") →
      states (i + k) = term → elapsed + 5 * k ≤ maxWaitSeconds + 5 →
      waitLoop (fun n => some [⟨bid, bv, states n⟩]) (some bv) maxWaitSeconds i elapsed
        (some "PROCESSING") (some bv) =
        ⟨if term = "VALID" then some bid else none, elapsed + 5 * k, [(bv, term)], k + 1⟩ := by
  intro k
  induction k with
  | zero =>
    intro i elapsed hproc hterm hbound
    have hi : states i = term := by simpa using hterm
    unfold waitLoop
    rcases hVI with h | h <;> subst h <;> simp [List.find?, hi]
  | succ k ih =>
    intro i elapsed hproc hterm hbound
    have hi : states i = "PROCESSING" := by simpa using hproc 0 (by omega)
    have htime : ¬ elapsed > maxWaitSeconds := by omega
    have hproc2 : ∀ j, j < k → states (i + 1 + j) = "PROCESSING" := by
      intro j hj
      have := hproc (j + 1) (by omega)
      rwa [show i + (j + 1) = i + 1 + j by omega] at this
    have hterm2 : states (i + 1 + k) = term := by
      rwa [show i + (k + 1) = i + 1 + k by omega] at hterm
    have ihr := ih (i + 1) (elapsed + 5) hproc2 hterm2 (by omega)
    unfold waitLoop
    simp [List.find?, hi, htime, ihr]
    omega

/-! ## Claims C5 and C6: `wait_for_build_processing` -/

/-- C5, counterexample.  An execution in which the expected build never
appears because the remote build list is empty: the source returns the
failure sentinel immediately (`if not response or not
response.get('data'): return None`), at elapsed time 0, far earlier than
the configured 3600-second timeout — refuting "not earlier than the
timeout" as stated for every execution where the build never appears. -/
theorem c5_empty_build_list_fails_early :
    waitLoop (fun _ => some []) (some "30") 3600 0 0 none none = ⟨none, 0, [], 1⟩ := by
  unfold waitLoop
  simp

/-- C5 (amended): provided every poll successfully returns a non-empty
build list, the wait loop is time-bounded exactly as claimed, in both
lookup modes: if the supplied expected build number is absent from
every returned list, if the latest build (no expected number) stays in
state PROCESSING forever, or if the expected build number is supplied
and the matching build is found but stays in state PROCESSING forever,
the loop returns the failure sentinel `None` with total sleep time
strictly greater than the configured timeout and at most one 5-second
poll period beyond it (it never blocks forever).  When a poll fails or
returns no builds at all, the function instead returns the failure
sentinel immediately. -/
theorem c5_wait_is_time_bounded (oracle : Nat → Option (List BuildInfo)) (bn : String)
    (maxWaitSeconds : Nat) :
    ((∀ i, ∃ b bs, oracle i = some (b :: bs) ∧ ∀ x ∈ b :: bs, x.version ≠ bn) →
      (waitLoop oracle (some bn) maxWaitSeconds 0 0 none none).result = none ∧
      maxWaitSeconds < (waitLoop oracle (some bn) maxWaitSeconds 0 0 none none).elapsed ∧
      (waitLoop oracle (some bn) maxWaitSeconds 0 0 none none).elapsed ≤ maxWaitSeconds + 5) ∧
    ((∀ i, ∃ b bs, oracle i = some (b :: bs) ∧ b.processingState = "PROCESSING") →
      (waitLoop oracle none maxWaitSeconds 0 0 none none).result = none ∧
      maxWaitSeconds < (waitLoop oracle none maxWaitSeconds 0 0 none none).elapsed ∧
      (waitLoop oracle none maxWaitSeconds 0 0 none none).elapsed ≤ maxWaitSeconds + 5) ∧
    ((∀ i, ∃ b bs t, oracle i = some (b :: bs) ∧
        (b :: bs).find? (fun x => x.version == bn) = some t ∧
        t.processingState = "PROCESSING") →
      (waitLoop oracle (some bn) maxWaitSeconds 0 0 none none).result = none ∧
      maxWaitSeconds < (waitLoop oracle (some bn) maxWaitSeconds 0 0 none none).elapsed ∧
      (waitLoop oracle (some bn) maxWaitSeconds 0 0 none none).elapsed ≤ maxWaitSeconds + 5) := by
  refine ⟨?_, ?_, ?_⟩
  · intro H
    exact waitLoop_build_never_appears oracle bn maxWaitSeconds H
      (maxWaitSeconds + 1) 0 0 none none (by omega) (by omega)
  · intro H
    exact waitLoop_processing_forever oracle maxWaitSeconds H
      (maxWaitSeconds + 1) 0 0 none none (by omega) (by omega)
  · intro H
    exact waitLoop_expected_processing_forever oracle bn maxWaitSeconds H
      (maxWaitSeconds + 1) 0 0 none none (by omega) (by omega)

/-- Witness for `c5_wait_is_time_bounded`: with a 7-second timeout,
a run whose polls return one build of version `29` when `30` is
expected, and a run whose polls find the expected build `30` always
still PROCESSING, both fail only after more than 7 seconds and within
12. -/
theorem c5_wait_is_time_bounded_witness :
    ((waitLoop (fun _ => some [⟨"b1", "29", "VALID"⟩]) (some "30") 7 0 0 none none).result =
        none ∧
      7 < (waitLoop (fun _ => some [⟨"b1", "29", "VALID"⟩]) (some "30") 7 0 0 none none).elapsed ∧
      (waitLoop (fun _ => some [⟨"b1", "29", "VALID"⟩]) (some "30") 7 0 0 none none).elapsed ≤
        12) ∧
    ((waitLoop (fun _ => some [⟨"b1", "30", "PROCESSING"⟩]) (some "30") 7 0 0
        none none).result = none ∧
      7 < (waitLoop (fun _ => some [⟨"b1", "30", "PROCESSING"⟩]) (some "30") 7 0 0
        none none).elapsed ∧
      (waitLoop (fun _ => some [⟨"b1", "30", "PROCESSING"⟩]) (some "30") 7 0 0
        none none).elapsed ≤ 12) :=
  ⟨(c5_wait_is_time_bounded (fun _ => some [⟨"b1", "29", "VALID"⟩]) "30" 7).1
     (fun _ => ⟨⟨"b1", "29", "VALID"⟩, [], rfl, by decide⟩),
   (c5_wait_is_time_bounded (fun _ => some [⟨"b1", "30", "PROCESSING"⟩]) "30" 7).2.2
     (fun _ => ⟨⟨"b1", "30", "PROCESSING"⟩, [], ⟨"b1", "30", "PROCESSING"⟩,
       rfl, by decide, rfl⟩)⟩

/-- C6 (confirmed): once the target build is found, the loop polls its
state every 5 seconds while PROCESSING (total sleep 5·k for k PROCESSING
polls, k+1 polls in all), logs exactly on state changes (two log lines —
`PROCESSING` on the first poll, then the terminal state — over all k+1
polls), returns the build identifier exactly when the state becomes
VALID, and returns the failure sentinel exactly when it becomes
INVALID. -/
theorem c6_found_build_polling (bid bv : String) (states : Nat → String)
    (k maxWaitSeconds : Nat) (term : String)
    (hk : 1 ≤ k)
    (hproc : ∀ j, j < k → states j = "PROCESSING")
    (hterm : states k = term)
    (hVI : term = "VALID" ∨ term = "INVALID")
    (hbound : 5 * k ≤ maxWaitSeconds) :
    waitLoop (fun n => some [⟨bid, bv, states n⟩]) (some bv) maxWaitSeconds 0 0 none none =
      ⟨if term = "VALID" then some bid else none, 5 * k,
       [(bv, "PROCESSING"), (bv, term)], k + 1⟩ := by
  have h0 : states 0 = "PROCESSING" := hproc 0 (by omega)
  have hproc2 : ∀ j, j < k - 1 → states (1 + j) = "PROCESSING" := by
    intro j hj
    exact hproc (1 + j) (by omega)
  have hterm2 : states (1 + (k - 1)) = term := by
    rwa [show 1 + (k - 1) = k by omega]
  have hphase := waitLoop_processing_phase bid bv states maxWaitSeconds term hVI
    (k - 1) 1 5 hproc2 hterm2 (by omega)
  have htime : ¬ (0 : Nat) > maxWaitSeconds := by omega
  unfold waitLoop
  simp [List.find?, h0, htime, hphase]
  omega

/-- Witness for `c6_found_build_polling`: a build that is PROCESSING for
two polls and then VALID is returned successfully after two 5-second
sleeps, three polls, and exactly two log lines. -/
theorem c6_found_build_polling_witness :
    waitLoop (fun n => some [⟨"b1", "30", (fun i => if i < 2 then "PROCESSING" else "VALID") n⟩])
        (some "30") 60 0 0 none none =
      ⟨some "b1", 10, [("30", "PROCESSING"), ("30", "VALID")], 3⟩ := by
  have h := c6_found_build_polling "b1" "30" (fun i => if i < 2 then "PROCESSING" else "VALID")
    2 60 "VALID" (by omega) (by decide) (by decide) (Or.inl rfl) (by omega)
  simpa using h

theorem wait_demo_eval :
    wait_for_build_processing demoBuildsOracle (some "30") 60 false =
      (some "bld-1", [⟨.get, "/builds"⟩]) := by
  have hw : waitLoop demoBuildsOracle (some "30") (60 * 60) 0 0 none none =
      ⟨some "bld-1", 0, [("30", "VALID")], 1⟩ := by
    unfold waitLoop
    simp [demoBuildsOracle, List.find?]
  simp [wait_for_build_processing, hw]
/-! ## Claim C4: an already-submitted version is benign -/

/-- C4 (confirmed): when the release version already exists and its
app-store state is one of WAITING_FOR_REVIEW, IN_REVIEW,
PENDING_DEVELOPER_RELEASE or READY_FOR_SALE, `get_or_create_version`
returns no identifier, issues no mutating call (no new version record),
and `main` exits with code 0 — the benign "already submitted" outcome
that makes re-running idempotent. -/
theorem c4_already_submitted_is_benign (args : Args) (env : MainEnv)
    (vp : String) (bn : Option String) (bid : String) (a : AppInfo) (apps : List AppInfo)
    (buildId : String) (c2 : List ApiCall) (v : VersionInfo) (vs : List VersionInfo)
    (henv : env.envOk = true)
    (hparse : parseVersion args.version = some (vp, bn))
    (hbid : resolve_bundle_id args env = some bid)
    (happ : env.appsResp = some (a :: apps))
    (hwait : wait_for_build_processing env.buildsOracle bn 60 args.dryRun = (some buildId, c2))
    (hlook : env.versionLookup = some (v :: vs))
    (hstate : v.appStoreState ∈ submittedStates) :
    (get_or_create_version env.versionLookup env.versionCreate args.dryRun).versionId = none ∧
    (∀ c ∈ (get_or_create_version env.versionLookup env.versionCreate args.dryRun).calls,
      c.method = HttpMethod.get) ∧
    (mainRun args env).exitCode = 0 := by
  have hgcv : get_or_create_version env.versionLookup env.versionCreate args.dryRun =
      ⟨none, [⟨.get, "/appStoreVersions"⟩]⟩ := by
    simp [get_or_create_version, hlook, hstate]
  refine ⟨by simp [hgcv], by simp [hgcv], ?_⟩
  unfold mainRun
  simp [henv, hparse, hbid, find_app_by_bundle_id, happ, hwait, hgcv]

/-- Witness for `c4_already_submitted_is_benign`: a version already in
state IN_REVIEW yields no version id and overall exit code 0. -/
theorem c4_already_submitted_is_benign_witness :
    (get_or_create_version (some [⟨"ver-9", "IN_REVIEW"⟩]) (some "ver-1") true).versionId = none ∧
    (mainRun ⟨"1.2.3+30", true, some "com.example.app"⟩
      { demoEnv with versionLookup := some [⟨"ver-9", "IN_REVIEW"⟩] }).exitCode = 0 :=
  ⟨(c4_already_submitted_is_benign ⟨"1.2.3+30", true, some "com.example.app"⟩
      { demoEnv with versionLookup := some [⟨"ver-9", "IN_REVIEW"⟩] }
      "1.2.3" (some "30") "com.example.app" demoApp [] "dry-run-build-id" []
      ⟨"ver-9", "IN_REVIEW"⟩ []
      rfl (by decide) rfl rfl rfl rfl (by decide)).1,
   (c4_already_submitted_is_benign ⟨"1.2.3+30", true, some "com.example.app"⟩
      { demoEnv with versionLookup := some [⟨"ver-9", "IN_REVIEW"⟩] }
      "1.2.3" (some "30") "com.example.app" demoApp [] "dry-run-build-id" []
      ⟨"ver-9", "IN_REVIEW"⟩ []
      rfl (by decide) rfl rfl rfl rfl (by decide)).2.2⟩

/-! ## Claim C7: dry-run issues no mutating call -/

/-- C7 (confirmed): with `--dry-run`, every API call the run issues is a
GET — no POST or PATCH is ever sent, whatever the remote side returns —
because each mutating stage returns its logged no-op placeholder before
reaching `make_api_request`; and when the GET lookups succeed (app found,
version not yet existing) the pipeline reaches the final summary with
exit code 0 and the placeholder identifiers `dry-run-version-id` and
`dry-run-build-id`. -/
theorem c7_dry_run_no_mutations (args : Args) (env : MainEnv) (hd : args.dryRun = true) :
    (∀ c ∈ (mainRun args env).calls, c.method = HttpMethod.get) ∧
    (∀ vp bn bid a apps,
      env.envOk = true →
      parseVersion args.version = some (vp, bn) →
      resolve_bundle_id args env = some bid →
      env.appsResp = some (a :: apps) →
      env.versionLookup = some [] →
      (mainRun args env).reachedSummary = true ∧
      (mainRun args env).exitCode = 0 ∧
      (mainRun args env).summaryVersionId = some "dry-run-version-id" ∧
      (mainRun args env).summaryBuildId = some "dry-run-build-id") := by
  constructor
  · intro c hc
    unfold mainRun at hc
    rw [hd] at hc
    simp only [wait_for_build_processing, link_build_to_version,
      add_release_notes_all_locales, submit_for_review, find_app_by_bundle_id,
      get_or_create_version, if_true, ite_true] at hc
    repeat split at hc
    all_goals simp_all
    all_goals aesop
  · intro vp bn bid a apps henv hparse hbid happ hlook
    unfold mainRun
    simp [henv, hparse, hbid, happ, hlook, hd, find_app_by_bundle_id,
      wait_for_build_processing, get_or_create_version, link_build_to_version,
      add_release_notes_all_locales, submit_for_review]

/-- Witness for `c7_dry_run_no_mutations`: a concrete dry run reaches
the summary with exit code 0 and both placeholder identifiers. -/
theorem c7_dry_run_no_mutations_witness :
    (mainRun ⟨"1.2.3+30", true, some "com.example.app"⟩ demoEnv).reachedSummary = true ∧
    (mainRun ⟨"1.2.3+30", true, some "com.example.app"⟩ demoEnv).exitCode = 0 ∧
    (mainRun ⟨"1.2.3+30", true, some "com.example.app"⟩ demoEnv).summaryVersionId =
      some "dry-run-version-id" ∧
    (mainRun ⟨"1.2.3+30", true, some "com.example.app"⟩ demoEnv).summaryBuildId =
      some "dry-run-build-id" :=
  (c7_dry_run_no_mutations ⟨"1.2.3+30", true, some "com.example.app"⟩ demoEnv rfl).2
    "1.2.3" (some "30") "com.example.app" demoApp [] rfl (by decide) rfl rfl rfl

/-! ## Claim C8: release-notes propagation -/

/-- C8 (confirmed): outside dry-run, `add_release_notes_all_locales`
reports success exactly when at least one localization was updated;
it enumerates every localization attached to the version, issuing one
PATCH per locale after the initial GET; and a partial failure (some
locales failing while at least one succeeds) still counts as success,
so the run continues to the summary with exit code 0 instead of
aborting. -/
theorem c8_release_notes_propagation (locsResp : Option (List LocInfo))
    (patchOk : String → Bool) :
    ((add_release_notes_all_locales locsResp patchOk false).ok = true ↔
      (add_release_notes_all_locales locsResp patchOk false).updatedLocales ≠ []) ∧
    (∀ l ls, locsResp = some (l :: ls) →
      (add_release_notes_all_locales locsResp patchOk false).calls =
        ⟨.get, "/appStoreVersionLocalizations"⟩ ::
          (l :: ls).map (fun _ => (⟨.patch, "/appStoreVersionLocalizations/id"⟩ : ApiCall))) ∧
    (∀ args env vp bn bid a apps buildId versionId c2,
      args.dryRun = false →
      env.locsResp = locsResp →
      env.locPatchOk = patchOk →
      env.envOk = true →
      parseVersion args.version = some (vp, bn) →
      resolve_bundle_id args env = some bid →
      env.appsResp = some (a :: apps) →
      wait_for_build_processing env.buildsOracle bn 60 args.dryRun = (some buildId, c2) →
      (get_or_create_version env.versionLookup env.versionCreate args.dryRun).versionId =
        some versionId →
      env.linkOk = true →
      (add_release_notes_all_locales locsResp patchOk false).ok = true →
      (mainRun args env).reachedSummary = true ∧ (mainRun args env).exitCode = 0) := by
  refine ⟨?_, ?_, ?_⟩
  · rcases locsResp with _ | ⟨_ | ⟨l, ls⟩⟩
    · simp [add_release_notes_all_locales]
    · simp [add_release_notes_all_locales]
    · by_cases hall : ((l :: ls).filter (fun x => patchOk x.id)).length = (l :: ls).length
      · have hpos : 0 < ((l :: ls).filter (fun x => patchOk x.id)).length := by
          have : (l :: ls).length = ls.length + 1 := rfl
          omega
        have hne : ((l :: ls).filter (fun x => patchOk x.id)) ≠ [] := by
          intro hnil
          rw [hnil] at hpos
          simp at hpos
        simp [add_release_notes_all_locales, hall, hne]
      · by_cases hpos : 0 < ((l :: ls).filter (fun x => patchOk x.id)).length
        · have hne : ((l :: ls).filter (fun x => patchOk x.id)) ≠ [] := by
            intro hnil
            rw [hnil] at hpos
            simp at hpos
          simp [add_release_notes_all_locales, hall, hpos, hne]
        · have hnil : ((l :: ls).filter (fun x => patchOk x.id)) = [] := by
            have : ((l :: ls).filter (fun x => patchOk x.id)).length = 0 := by omega
            exact List.length_eq_zero.1 this
          simp [add_release_notes_all_locales, hall, hpos, hnil]
  · intro l ls hl
    subst hl
    simp [add_release_notes_all_locales]
    split
    · rfl
    · split <;> rfl
  · intro args env vp bn bid a apps buildId versionId c2
      hd hlr hpk henv hparse hbid happ hwait hgcv hlink hok
    subst hlr
    subst hpk
    unfold mainRun
    rw [hd] at hwait hgcv ⊢
    simp [henv, hparse, hbid, happ, find_app_by_bundle_id, hwait, hgcv, hlink,
      link_build_to_version, hok]

/-- Witness for `c8_release_notes_propagation`: with two localizations
of which only `loc-1` updates successfully (a partial failure), a full
concrete non-dry-run pipeline still reaches the summary with exit
code 0. -/
theorem c8_release_notes_propagation_witness :
    (mainRun demoArgs demoEnv).reachedSummary = true ∧ (mainRun demoArgs demoEnv).exitCode = 0 :=
  (c8_release_notes_propagation demoEnv.locsResp demoEnv.locPatchOk).2.2
    demoArgs demoEnv "1.2.3" (some "30") "com.example.app" demoApp [] "bld-1" "ver-1" _
    rfl rfl rfl rfl (by decide) rfl rfl wait_demo_eval rfl rfl (by decide)

/-! ## Claim C9: process exit codes -/

/-- C9, counterexample.  A run in which everything succeeds up to
version creation but the `POST /appStoreVersions` request fails:
`get_or_create_version` returns `None`, and `main` reaches
`if not version_id: sys.exit(0)` — exit code 0, not the exit code 1 the
claim requires for a version-creation failure. -/
theorem c9_version_creation_failure_exits_zero :
    (mainRun demoArgs c9Env).exitCode = 0 := by
  have henv : c9Env.envOk = true := rfl
  have hparse : parseVersion demoArgs.version = some ("1.2.3", some "30") := by decide
  have hbid : resolve_bundle_id demoArgs c9Env = some "com.example.app" := rfl
  have happ : c9Env.appsResp = some [demoApp] := rfl
  have hwait : wait_for_build_processing c9Env.buildsOracle (some "30") 60 demoArgs.dryRun =
      (some "bld-1", [⟨.get, "/builds"⟩]) := wait_demo_eval
  have hgcv : get_or_create_version c9Env.versionLookup c9Env.versionCreate demoArgs.dryRun =
      ⟨none, [⟨.get, "/appStoreVersions"⟩, ⟨.post, "/appStoreVersions"⟩]⟩ := rfl
  unfold mainRun
  simp [henv, hparse, hbid, happ, hwait, hgcv, find_app_by_bundle_id]

/-- C9 (amended): the `__main__` guard exits 130 on `KeyboardInterrupt`,
1 on any other uncaught exception, and passes `sys.exit` codes through;
`main` exits 1 on missing credentials, an unparseable version argument,
a missing bundle id, an app lookup failure, a build-wait failure, a
build-link failure and a release-notes failure, and exits 0 on success;
but whenever `get_or_create_version` returns no identifier — the benign
already-submitted case and also a version-lookup or version-creation
request failure — `main` exits 0, not 1. -/
theorem c9_exit_codes (args : Args) (env : MainEnv)
    (vp : String) (bn : Option String) (bid buildId versionId : String)
    (a : AppInfo) (apps : List AppInfo) (c1 c2 c4 : List ApiCall) :
    topLevelExitCode MainOutcome.keyboardInterrupt = 130 ∧
    topLevelExitCode MainOutcome.exception = 1 ∧
    (∀ code, topLevelExitCode (MainOutcome.exitWith code) = code) ∧
    (env.envOk = false → (mainRun args env).exitCode = 1) ∧
    (env.envOk = true → parseVersion args.version = none → (mainRun args env).exitCode = 1) ∧
    (env.envOk = true → parseVersion args.version = some (vp, bn) →
      resolve_bundle_id args env = none → (mainRun args env).exitCode = 1) ∧
    (env.envOk = true → parseVersion args.version = some (vp, bn) →
      resolve_bundle_id args env = some bid →
      find_app_by_bundle_id env.appsResp = (none, c1) → (mainRun args env).exitCode = 1) ∧
    (env.envOk = true → parseVersion args.version = some (vp, bn) →
      resolve_bundle_id args env = some bid →
      env.appsResp = some (a :: apps) →
      wait_for_build_processing env.buildsOracle bn 60 args.dryRun = (none, c2) →
      (mainRun args env).exitCode = 1) ∧
    (env.envOk = true → parseVersion args.version = some (vp, bn) →
      resolve_bundle_id args env = some bid →
      env.appsResp = some (a :: apps) →
      wait_for_build_processing env.buildsOracle bn 60 args.dryRun = (some buildId, c2) →
      (get_or_create_version env.versionLookup env.versionCreate args.dryRun).versionId = none →
      (mainRun args env).exitCode = 0) ∧
    (env.envOk = true → parseVersion args.version = some (vp, bn) →
      resolve_bundle_id args env = some bid →
      env.appsResp = some (a :: apps) →
      wait_for_build_processing env.buildsOracle bn 60 args.dryRun = (some buildId, c2) →
      (get_or_create_version env.versionLookup env.versionCreate args.dryRun).versionId =
        some versionId →
      link_build_to_version env.linkOk args.dryRun = (false, c4) →
      (mainRun args env).exitCode = 1) ∧
    (env.envOk = true → parseVersion args.version = some (vp, bn) →
      resolve_bundle_id args env = some bid →
      env.appsResp = some (a :: apps) →
      wait_for_build_processing env.buildsOracle bn 60 args.dryRun = (some buildId, c2) →
      (get_or_create_version env.versionLookup env.versionCreate args.dryRun).versionId =
        some versionId →
      link_build_to_version env.linkOk args.dryRun = (true, c4) →
      (add_release_notes_all_locales env.locsResp env.locPatchOk args.dryRun).ok = false →
      (mainRun args env).exitCode = 1) ∧
    (env.envOk = true → parseVersion args.version = some (vp, bn) →
      resolve_bundle_id args env = some bid →
      env.appsResp = some (a :: apps) →
      wait_for_build_processing env.buildsOracle bn 60 args.dryRun = (some buildId, c2) →
      (get_or_create_version env.versionLookup env.versionCreate args.dryRun).versionId =
        some versionId →
      link_build_to_version env.linkOk args.dryRun = (true, c4) →
      (add_release_notes_all_locales env.locsResp env.locPatchOk args.dryRun).ok = true →
      (mainRun args env).exitCode = 0 ∧ (mainRun args env).reachedSummary = true) := by
  refine ⟨rfl, rfl, fun _ => rfl, ?_, ?_, ?_, ?_, ?_, ?_, ?_, ?_, ?_⟩
  · intro henv
    unfold mainRun
    simp [henv]
  · intro henv hparse
    unfold mainRun
    simp [henv, hparse]
  · intro henv hparse hbid
    unfold mainRun
    simp [henv, hparse, hbid]
  · intro henv hparse hbid hfind
    unfold mainRun
    simp [henv, hparse, hbid, hfind]
  · intro henv hparse hbid happ hwait
    unfold mainRun
    simp [henv, hparse, hbid, happ, hwait, find_app_by_bundle_id]
  · intro henv hparse hbid happ hwait hgcv
    unfold mainRun
    simp [henv, hparse, hbid, happ, hwait, hgcv, find_app_by_bundle_id]
  · intro henv hparse hbid happ hwait hgcv hlink
    unfold mainRun
    simp [henv, hparse, hbid, happ, hwait, hgcv, hlink, find_app_by_bundle_id]
  · intro henv hparse hbid happ hwait hgcv hlink hnotes
    unfold mainRun
    simp [henv, hparse, hbid, happ, hwait, hgcv, hlink, hnotes, find_app_by_bundle_id]
  · intro henv hparse hbid happ hwait hgcv hlink hnotes
    unfold mainRun
    simp [henv, hparse, hbid, happ, hwait, hgcv, hlink, hnotes, find_app_by_bundle_id]

/-- Witness for `c9_exit_codes`: interrupts exit 130 and a run with
missing credential environment variables exits 1. -/
theorem c9_exit_codes_witness :
    topLevelExitCode MainOutcome.keyboardInterrupt = 130 ∧
    (mainRun demoArgs { demoEnv with envOk := false }).exitCode = 1 :=
  ⟨(c9_exit_codes demoArgs { demoEnv with envOk := false }
      "1.2.3" (some "30") "b" "b" "v" demoApp [] [] [] []).1,
   (c9_exit_codes demoArgs { demoEnv with envOk := false }
      "1.2.3" (some "30") "b" "b" "v" demoApp [] [] [] []).2.2.2.1 rfl⟩

/-! ## Claim C10: zero-localization failure and submission-failure fall-through -/

/-- C10 (confirmed): if the localization listing succeeds but returns an
empty list, `add_release_notes_all_locales` returns `False` with no
per-locale failure recorded, and the run exits 1; and if the
review-submission stage fails even after its legacy fallback, `main`
still falls through to the summary and the process exits 0, not 1
(with the summary's submission flag `False`). -/
theorem c10_notes_empty_and_submit_fallthrough (args : Args) (env : MainEnv)
    (vp : String) (bn : Option String) (bid : String) (a : AppInfo) (apps : List AppInfo)
    (buildId versionId : String) (c2 : List ApiCall)
    (hd : args.dryRun = false)
    (henv : env.envOk = true)
    (hparse : parseVersion args.version = some (vp, bn))
    (hbid : resolve_bundle_id args env = some bid)
    (happ : env.appsResp = some (a :: apps))
    (hwait : wait_for_build_processing env.buildsOracle bn 60 args.dryRun = (some buildId, c2))
    (hgcv : (get_or_create_version env.versionLookup env.versionCreate args.dryRun).versionId =
      some versionId)
    (hlink : env.linkOk = true) :
    (env.locsResp = some [] →
      (add_release_notes_all_locales env.locsResp env.locPatchOk args.dryRun).ok = false ∧
      (add_release_notes_all_locales env.locsResp env.locPatchOk args.dryRun).failedLocales =
        [] ∧
      (mainRun args env).exitCode = 1) ∧
    ((add_release_notes_all_locales env.locsResp env.locPatchOk args.dryRun).ok = true →
      env.rsCreate = none → env.rsLegacyOk = false →
      (mainRun args env).reachedSummary = true ∧
      (mainRun args env).exitCode = 0 ∧
      (mainRun args env).submissionSuccess = some false) := by
  constructor
  · intro hlocs
    have hnotes : add_release_notes_all_locales env.locsResp env.locPatchOk args.dryRun =
        ⟨false, [⟨.get, "/appStoreVersionLocalizations"⟩], [], []⟩ := by
      rw [hd, hlocs]
      simp [add_release_notes_all_locales]
    refine ⟨by simp [hnotes], by simp [hnotes], ?_⟩
    unfold mainRun
    rw [hd] at hwait hgcv ⊢
    rw [hd] at hnotes
    simp [henv, hparse, hbid, happ, hwait, hgcv, hlink, hnotes,
      find_app_by_bundle_id, link_build_to_version]
  · intro hok hrs hleg
    have hsub : submit_for_review env.rsCreate env.rsItemOk env.rsConfirmOk
        env.rsLegacyOk args.dryRun =
        (false, [⟨.post, "/reviewSubmissions"⟩, ⟨.post, "/appStoreVersionSubmissions"⟩]) := by
      rw [hd, hrs]
      simp [submit_for_review, submit_for_review_legacy, hleg]
    unfold mainRun
    rw [hd] at hwait hgcv hok hsub ⊢
    simp [henv, hparse, hbid, happ, hwait, hgcv, hlink, hok, hsub,
      find_app_by_bundle_id, link_build_to_version]

/-- Witness for `c10_notes_empty_and_submit_fallthrough`: a concrete run
whose version has zero localizations returns `False` from the
release-notes stage — with no individual locale having failed — and
exits 1. -/
theorem c10_notes_empty_and_submit_fallthrough_witness :
    (add_release_notes_all_locales c10Env.locsResp c10Env.locPatchOk demoArgs.dryRun).ok =
      false ∧
    (add_release_notes_all_locales c10Env.locsResp c10Env.locPatchOk
      demoArgs.dryRun).failedLocales = [] ∧
    (mainRun demoArgs c10Env).exitCode = 1 :=
  (c10_notes_empty_and_submit_fallthrough demoArgs c10Env
      "1.2.3" (some "30") "com.example.app" demoApp [] "bld-1" "ver-1" [⟨.get, "/builds"⟩]
      rfl rfl (by decide) rfl rfl wait_demo_eval rfl rfl).1 rfl
